import Mathlib

/-!
Verification of the Draft-Writer-Bot repository against its specification.

The development shallowly embeds the two components the specification covers:

* `src/llm_interface.py`: the function `generate_draft`, which builds the wire
  request for the Ollama `/api/chat` endpoint and turns every outcome of the
  HTTP layer into a `(draft, error)` pair.  Python strings are modelled as
  `List Char`, JSON values returned by `response.json()` as the inductive
  `PyVal`, and the behaviour of the `requests` transport as the inductive
  `TransportOutcome` (the HTTP layer is the environment; its outcome is an
  input of the embedded function).
* `src/ui.py`: the state of `DraftBotApp` relevant to the generation pipeline
  (`is_generating`, the text boxes, the status bar, the thread-safe queue) and
  the transitions `start_generate_task` and `process_ui_update`.

The streaming client `generate_draft_async` that `src/ui.py` imports is not
present under `src/`; where a claim is decided by it, the definition is
modelled from the specification and marked as such in its doc comment.
-/

namespace DraftBot

/-- Convert a Lean string literal to the character-list representation used
for Python strings throughout this development. -/
def lit (s : String) : List Char := s.data

/-- Configuration constant `DEFAULT_MODEL` of `src/llm_interface.py` (the
`os.getenv` override is environment input and is not modelled; the default
value is embedded). -/
def DEFAULT_MODEL : List Char := lit "qwen2.5:0.5b"

/-- Configuration constant `DEFAULT_OLLAMA_URL` of `src/llm_interface.py`. -/
def DEFAULT_OLLAMA_URL : List Char := lit "http://localhost:11434"

/-- Configuration constant `REQUEST_TIMEOUT` of `src/llm_interface.py`. -/
def REQUEST_TIMEOUT : Nat := 60

/-- Python `s.rstrip('/')`: remove every trailing `'/'` character. -/
def rstripSlashes (s : List Char) : List Char :=
  s.rdropWhile (fun c => c == '/')

/-- The URL built at the top of `generate_draft`:
`f"{ollama_url.rstrip('/')}/api/chat"`. -/
def full_url (ollama_url : List Char) : List Char :=
  rstripSlashes ollama_url ++ lit "/api/chat"

/-- Literal segment of the prompt f-string before `{original_message}`. -/
def promptPartA : List Char :=
  lit "The user received the following message from someone else:\n\"\"\"\n"

/-- Literal segment of the prompt f-string between `{original_message}` and
`{instruction}`. -/
def promptPartB : List Char :=
  lit "\n\"\"\"\n\nThe user wants to send a reply based on this instruction: \""

/-- Literal segment of the prompt f-string after `{instruction}`. -/
def promptPartC : List Char :=
  lit "\"\n\nDraft a message that the user can send as their reply.\nThe reply should directly convey the user\x27s intent based on the instruction.\nIMPORTANT: Write only the reply text itself, do not act as an assistant writing about the reply. Or add anything else other the reply itself.\n\nReply Draft:"

/-- The prompt f-string of `generate_draft` (lines 53-64 of
`src/llm_interface.py`). -/
def buildPrompt (original_message instruction : List Char) : List Char :=
  promptPartA ++ original_message ++ promptPartB ++ instruction ++ promptPartC

/-- One entry of the `messages` list of the chat payload. -/
structure ChatMessage where
  role : List Char
  content : List Char
deriving DecidableEq

/-- The JSON payload sent in the POST request body (lines 78-84 of
`src/llm_interface.py`). -/
structure ChatPayload where
  model : List Char
  messages : List ChatMessage
  stream : Bool
deriving DecidableEq

/-- The wire request issued by `requests.post(full_url, json=payload, ...)`. -/
structure WireRequest where
  method : List Char
  url : List Char
  payload : ChatPayload
deriving DecidableEq

/-- The request `generate_draft` sends: a POST to `full_url` with the payload
`{"model": model, "messages": [{"role": "user", "content": prompt}],
"stream": False}`. -/
def buildRequest (original_message instruction model ollama_url : List Char) :
    WireRequest :=
  { method := lit "POST"
    url := full_url ollama_url
    payload :=
      { model := model
        messages := [{ role := lit "user"
                       content := buildPrompt original_message instruction }]
        stream := false } }

/-- Python values as decoded from JSON by `response.json()`: strings, numbers
(integers suffice for the claims), booleans, `None`, lists and dicts. -/
inductive PyVal where
  | str (s : List Char)
  | int (n : Int)
  | bool (b : Bool)
  | null
  | list (xs : List PyVal)
  | dict (kvs : List (List Char × PyVal))

/-- Python `repr` of a value, used by `str()` on containers. -/
def pyRepr : PyVal → List Char
  | .str s => '\x27' :: (s ++ ['\x27'])
  | .int n => (toString n).data
  | .bool true => lit "True"
  | .bool false => lit "False"
  | .null => lit "None"
  | .list xs => '[' :: (pyReprItems xs ++ [']'])
  | .dict kvs => '\x7b' :: (pyReprPairs kvs ++ ['\x7d'])
where
  pyReprItems : List PyVal → List Char
    | [] => []
    | [v] => pyRepr v
    | v :: rest => pyRepr v ++ lit ", " ++ pyReprItems rest
  pyReprPairs : List (List Char × PyVal) → List Char
    | [] => []
    | [(k, v)] => '\x27' :: (k ++ ['\x27']) ++ lit ": " ++ pyRepr v
    | (k, v) :: rest =>
      '\x27' :: (k ++ ['\x27']) ++ lit ": " ++ pyRepr v ++ lit ", " ++ pyReprPairs rest

/-- Python `str()` as used by f-string interpolation: a string interpolates
verbatim, every other value through its `repr`-style rendering. -/
def pyStr : PyVal → List Char
  | .str s => s
  | v => pyRepr v

/-- Whitespace characters removed by Python `str.strip()` (the ASCII ones;
the claims only involve ASCII text). -/
def isPySpace (c : Char) : Bool :=
  c == ' ' || c == '\t' || c == '\n' || c == '\r' || c == '\x0b' || c == '\x0c'

/-- Python `s.strip()`: remove leading and trailing whitespace. -/
def pyStrip (s : List Char) : List Char :=
  (s.dropWhile isPySpace).rdropWhile isPySpace

/-- Python `k in v` for a string `k`: key test on a dict, membership on a
list, substring test on a string; `TypeError` on any other value.  The error
branch carries the exception name, feeding the catch-all handler. -/
def pyIn (k : List Char) : PyVal → Except (List Char) Bool
  | .dict kvs => .ok (kvs.any (fun p => p.1 == k))
  | .list xs => .ok (xs.any (fun v => match v with | .str s => s == k | _ => false))
  | .str s => .ok (decide (k <:+: s))
  | _ => .error (lit "TypeError")

/-- Python `v[k]` for a string `k`: lookup on a dict, `TypeError` on any
other value (subscripting a list or a string with a string raises). -/
def pyGetItem (k : List Char) : PyVal → Except (List Char) PyVal
  | .dict kvs =>
    match kvs.find? (fun p => p.1 == k) with
    | some p => .ok p.2
    | none => .error (lit "KeyError")
  | _ => .error (lit "TypeError")

/-- The response object of a completed HTTP exchange, as `generate_draft`
observes it: status code, reason phrase, raw body text, and the outcome of
`response.json()` (`none` models `json.JSONDecodeError`). -/
structure HttpResponse where
  status_code : Nat
  reason : List Char
  text : List Char
  jsonBody : Option PyVal

/-- Behaviour of the `requests` transport layer for one call: the exceptions
`generate_draft` catches, or a completed response.  This is the environment
input of the embedded function. -/
inductive TransportOutcome where
  | connectionError
  | timeout
  | requestException (desc : List Char)
  | unexpectedException (desc : List Char)
  | response (r : HttpResponse)

/-- Error message of the `requests.exceptions.ConnectionError` handler
(line 124 of `src/llm_interface.py`). -/
def connectionErrorMsg (url : List Char) : List Char :=
  lit "Connection Error: Could not connect to Ollama at " ++ url ++
    lit ". Is Ollama running?"

/-- Error message of the `requests.exceptions.Timeout` handler (line 130). -/
def timeoutErrorMsg : List Char :=
  lit "Timeout Error: Request to Ollama timed out after " ++
    (toString REQUEST_TIMEOUT).data ++ lit " seconds."

/-- Decimal rendering of the status code, as interpolated by the f-strings. -/
def statusDigits (r : HttpResponse) : List Char := (toString r.status_code).data

/-- The string of the `requests.exceptions.HTTPError` raised by
`raise_for_status()`: `"{code} Client Error: {reason} for url: {url}"` for
4xx and the `Server Error` variant for 5xx. -/
def httpErrorReasonMsg (r : HttpResponse) (url : List Char) : List Char :=
  statusDigits r ++
    (if r.status_code < 500 then lit " Client Error: " else lit " Server Error: ") ++
    r.reason ++ lit " for url: " ++ url

/-- The lookup `response.json().get('error', response.text)` of the
`HTTPError` handler. -/
def dictGetError (kvs : List (List Char × PyVal)) : Option PyVal :=
  (kvs.find? (fun p => p.1 == lit "error")).map (fun p => p.2)

/-- Detail appended to the `HTTPError` message (lines 138-144): the body's
`error` field if the body is a JSON dict carrying one, the raw body through
`.get`'s default if the dict has no such key, and the raw body through the
`AttributeError`/`JSONDecodeError` fallback otherwise. -/
def httpErrorSuffix (r : HttpResponse) : List Char :=
  match r.jsonBody with
  | some (.dict kvs) =>
    match dictGetError kvs with
    | some v => lit "\nOllama Response: " ++ pyStr v
    | none => lit "\nOllama Response: " ++ r.text
  | some _ => lit "\nRaw Response: " ++ r.text
  | none => lit "\nRaw Response: " ++ r.text

/-- Full error message of the `HTTPError` handler (lines 136-144). -/
def httpErrorMsg (r : HttpResponse) (url : List Char) : List Char :=
  lit "HTTP Error: " ++ httpErrorReasonMsg r url ++ lit ". Status Code: " ++
    statusDigits r ++ httpErrorSuffix r

/-- Error message of the generic `RequestException` handler (line 150). -/
def requestErrorMsg (desc : List Char) : List Char :=
  lit "Request Error: An unexpected error occurred during the request: " ++ desc

/-- Error message of the `json.JSONDecodeError` handler (lines 157-159). -/
def decodeErrorMsg (raw : List Char) : List Char :=
  lit "JSON Decode Error: Could not decode JSON response from Ollama.\nRaw Response: " ++
    raw

/-- Error message of the unexpected-format branch (line 116). -/
def unexpectedFormatMsg : List Char :=
  lit "Unexpected response format from Ollama: Missing \x27message\x27 or \x27content\x27 key."

/-- Error message of the catch-all `except Exception` handler (line 165); the
argument describes the exception. -/
def catchAllMsg (desc : List Char) : List Char :=
  lit "An unexpected error occurred in generate_draft: " ++ desc

/-- The draft-extraction logic of lines 109-113:
`if 'message' in response_data and 'content' in response_data['message']`
followed by `response_data['message']['content'].strip()`.  `.ok none` is the
else-branch (unexpected format); `.error` is a dynamic Python error reaching
the catch-all handler (for example `.strip()` on a non-string content). -/
def extractDraft (response_data : PyVal) : Except (List Char) (Option (List Char)) :=
  match pyIn (lit "message") response_data with
  | .error desc => .error desc
  | .ok false => .ok none
  | .ok true =>
    match pyGetItem (lit "message") response_data with
    | .error desc => .error desc
    | .ok m =>
      match pyIn (lit "content") m with
      | .error desc => .error desc
      | .ok false => .ok none
      | .ok true =>
        match pyGetItem (lit "content") m with
        | .error desc => .error desc
        | .ok (.str s) => .ok (some (pyStrip s))
        | .ok _ => .error (lit "AttributeError")

/-- Lines 105-118: turn the parsed response body into the returned pair. -/
def processResponseData (response_data : PyVal) :
    Option (List Char) × Option (List Char) :=
  match extractDraft response_data with
  | .ok (some draft) => (some draft, none)
  | .ok none => (none, some unexpectedFormatMsg)
  | .error desc => (none, some (catchAllMsg desc))

/-- The function `generate_draft` of `src/llm_interface.py`, as a function of
its string arguments and of the transport outcome.  Every handler of the
try/except chain is one branch; `raise_for_status()` raises exactly when
`400 <= status_code < 600`. -/
def generate_draft (original_message instruction model ollama_url : List Char)
    (outcome : TransportOutcome) : Option (List Char) × Option (List Char) :=
  let _request := buildRequest original_message instruction model ollama_url
  match outcome with
  | .connectionError => (none, some (connectionErrorMsg (full_url ollama_url)))
  | .timeout => (none, some timeoutErrorMsg)
  | .requestException desc => (none, some (requestErrorMsg desc))
  | .unexpectedException desc => (none, some (catchAllMsg desc))
  | .response r =>
    if 400 ≤ r.status_code ∧ r.status_code < 600 then
      (none, some (httpErrorMsg r (full_url ollama_url)))
    else
      match r.jsonBody with
      | none => (none, some (decodeErrorMsg r.text))
      | some response_data => processResponseData response_data

/-- The queue-message tags of `src/ui.py` (`UPDATE_CHUNK`, `UPDATE_ERROR`,
`UPDATE_DONE`, `UPDATE_STATUS`). -/
inductive UpdateKind where
  | chunk
  | error
  | done
  | status
deriving DecidableEq

/-- The state of `DraftBotApp` relevant to the generation pipeline: the two
input boxes, the `is_generating` flag, the output box (content and editable
state), the status bar, the generate button, the thread-safe UI queue, and a
count of spawned generation threads (each `threading.Thread(...).start()`
increments it; it lets the no-second-worker property be stated). -/
structure AppState where
  original_msg_text : List Char
  instruction_text : List Char
  is_generating : Bool
  generated_draft_text : List Char
  draft_box_editable : Bool
  status_text : List Char
  generate_button_enabled : Bool
  generate_button_text : List Char
  ui_update_queue : List (UpdateKind × Option (List Char))
  worker_threads : Nat
deriving DecidableEq

/-- The method `DraftBotApp.start_generate_task` (lines 153-215 of
`src/ui.py`).  Returns the new state together with the console/popup messages
the call emits (`print` and `messagebox` output, which is not part of the
widget state).  The in-flight guard returns after only a `print`; the
empty-input guard shows a warning box; otherwise the UI is prepared and one
background worker thread is started. -/
def start_generate_task (s : AppState) : AppState × List (List Char) :=
  if s.is_generating then
    (s, [lit "Already generating, please wait."])
  else
    let original_message := pyStrip s.original_msg_text
    let instruction := pyStrip s.instruction_text
    if original_message.isEmpty || instruction.isEmpty then
      (s, [lit "Input Required: Please enter both the original message and your instruction."])
    else
      ({ s with
          is_generating := true
          generate_button_enabled := false
          generate_button_text := lit "Generating..."
          status_text := lit "Generating draft..."
          generated_draft_text := []
          draft_box_editable := true
          worker_threads := s.worker_threads + 1 }, [])

/-- The method `DraftBotApp.process_ui_update` (lines 235-264 of
`src/ui.py`): apply one queue message to the widget state.  `UPDATE_CHUNK`
appends to the output box; `UPDATE_ERROR` clears the box and replaces its
content with `"Error:\n" + str(data)`, resets `is_generating` and the button,
and sets the failure status; `UPDATE_DONE` sets the success status and resets
the flag and button; `UPDATE_STATUS` has no handler branch in the source and
leaves the state unchanged. -/
def process_ui_update (s : AppState) (update_type : UpdateKind)
    (data : Option (List Char)) : AppState :=
  match update_type with
  | .chunk =>
    { s with
        generated_draft_text := s.generated_draft_text ++ data.getD []
        status_text := lit "Generating..." }
  | .error =>
    { s with
        generated_draft_text :=
          lit "Error:\n" ++ (match data with | some d => d | none => lit "None")
        status_text := lit "Error occurred. See output box."
        is_generating := false
        generate_button_enabled := true
        generate_button_text := lit "Generate Draft"
        draft_box_editable := false }
  | .done =>
    { s with
        status_text := lit "Draft generated successfully."
        is_generating := false
        generate_button_enabled := true
        generate_button_text := lit "Generate Draft"
        draft_box_editable := false }
  | .status => s

/-- Failure taxonomy of the streaming client, from the specification. -/
inductive ErrorKind where
  | connectFailed
  | timedOut
  | protocolError
  | decodeError
  | transportError
  | internalError
deriving DecidableEq

/-- The tagged-union event stream of the specification. -/
inductive StreamEvent where
  | fragment (text : List Char)
  | done
  | failed (kind : ErrorKind) (detail : List Char)
deriving DecidableEq

/-- Modelled from the spec: one streamed envelope, a single JSON object per
line with optional fields `error`, `message.content` and `done`.  The code of
`generate_draft_async`, which decodes these lines, is imported by `src/ui.py`
but is not present under `src/`. -/
structure Envelope where
  error : Option (List Char)
  content : Option (List Char)
  done : Bool
deriving DecidableEq

/-- Modelled from the spec: one line of the streamed response body together
with its parse outcome (`none` models a line that is not valid JSON). -/
structure RawLine where
  raw : List Char
  parsed : Option Envelope
deriving DecidableEq

/-- Whether an envelope carries a present and non-empty `error` field. -/
def envelopeHasError (env : Envelope) : Bool :=
  match env.error with
  | some e => !e.isEmpty
  | none => false

/-- The text of an envelope's `error` field, empty when absent. -/
def envelopeErrorText (env : Envelope) : List Char := env.error.getD []

/-- Modelled from the spec: the line-granular decode loop of the missing
`generate_draft_async` (specification section 4.1).  Empty lines are skipped;
a malformed line terminates with a decode failure; an envelope with a
non-empty `error` terminates with a protocol failure; `done: true` terminates
with `Done` and takes priority over content extraction; a non-empty
`message.content` emits a fragment and reading continues; any other envelope
is skipped.  The specification does not state what happens when the body ends
without a `done` envelope; the model emits `Done` at end of input so that
every read terminates. -/
def processLines : List RawLine → List StreamEvent
  | [] => [.done]
  | line :: rest =>
    if line.raw.isEmpty then processLines rest
    else
      match line.parsed with
      | none =>
        [.failed .decodeError (lit "Could not parse stream line as JSON: " ++ line.raw)]
      | some env =>
        if envelopeHasError env then
          [.failed .protocolError (envelopeErrorText env)]
        else if env.done then [.done]
        else
          match env.content with
          | none => processLines rest
          | some c =>
            if c.isEmpty then processLines rest
            else .fragment c :: processLines rest

/-- Modelled from the spec: behaviour of the HTTP layer for one streamed
call, mirroring the failure taxonomy of specification section 4.1. -/
inductive StreamOutcome where
  | connectFailed
  | timedOut
  | httpError (status : Nat) (reason : List Char) (body : List Char)
  | transportError (desc : List Char)
  | streamedBody (lines : List RawLine)

/-- Modelled from the spec: the full event sequence one call of the missing
`generate_draft_async` produces for a given transport behaviour. -/
def streamEvents (ollama_url : List Char) : StreamOutcome → List StreamEvent
  | .connectFailed =>
    [.failed .connectFailed (lit "Could not connect to Ollama at " ++ full_url ollama_url)]
  | .timedOut =>
    [.failed .timedOut
      (lit "Request to " ++ full_url ollama_url ++ lit " timed out after " ++
        (toString REQUEST_TIMEOUT).data ++ lit " seconds")]
  | .httpError status reason body =>
    [.failed .protocolError
      ((toString status).data ++ lit " " ++ reason ++ lit ": " ++ body)]
  | .transportError desc => [.failed .transportError desc]
  | .streamedBody lines => processLines lines

/-- Claim C1, counterexample: the claim states the wire payload has
`stream: true`, but the payload built by `generate_draft` (lines 78-84 of
`src/llm_interface.py`) sets `"stream": False`; the repository's own test
asserts `call_kwargs['json']['stream'] is False`.  At concrete inputs the
payload's stream field is not true. -/
theorem c1_stream_true_counterexample :
    ¬ ((buildRequest (lit "Hello") (lit "Say yes") DEFAULT_MODEL
        DEFAULT_OLLAMA_URL).payload.stream = true) := by
  decide

/-- Claim C1 (amended): for every request, the wire request is a POST to
`{endpoint}/api/chat` with the endpoint stripped of trailing slashes, and its
JSON body is `{ model, messages: [single user-role entry], stream: false }`
(the stream field set false, so the server returns the whole response at
once rather than incremental output). -/
theorem c1_wire_payload (original_message instruction model ollama_url : List Char) :
    (buildRequest original_message instruction model ollama_url).method = lit "POST" ∧
    (buildRequest original_message instruction model ollama_url).url =
      rstripSlashes ollama_url ++ lit "/api/chat" ∧
    (buildRequest original_message instruction model ollama_url).payload.model = model ∧
    (buildRequest original_message instruction model ollama_url).payload.messages =
      [{ role := lit "user", content := buildPrompt original_message instruction }] ∧
    (buildRequest original_message instruction model ollama_url).payload.stream = false :=
  ⟨rfl, rfl, rfl, rfl, rfl⟩

set_option maxRecDepth 4096 in
/-- Claim C8: the request body's messages list is a single user-role entry
whose content contains the original message verbatim and the instruction
verbatim as substrings, together with the explicit instruction to emit only
the reply text. -/
theorem c8_prompt_embeds_inputs
    (original_message instruction model ollama_url : List Char) :
    (buildRequest original_message instruction model ollama_url).payload.messages =
      [{ role := lit "user", content := buildPrompt original_message instruction }] ∧
    original_message <:+: buildPrompt original_message instruction ∧
    instruction <:+: buildPrompt original_message instruction ∧
    lit "Write only the reply text itself" <:+: buildPrompt original_message instruction := by
  refine ⟨rfl, ?_, ?_, ?_⟩
  · exact ⟨promptPartA, promptPartB ++ instruction ++ promptPartC,
      by simp [buildPrompt, List.append_assoc]⟩
  · exact ⟨promptPartA ++ original_message ++ promptPartB, promptPartC,
      by simp [buildPrompt, List.append_assoc]⟩
  · have h : lit "Write only the reply text itself" <:+: promptPartC := by decide
    have h2 : promptPartC <:+: buildPrompt original_message instruction :=
      ⟨promptPartA ++ original_message ++ promptPartB ++ instruction, [],
        by simp [buildPrompt, List.append_assoc]⟩
    exact h.trans h2

/-- Claim C7: processing a Failed event (`UPDATE_ERROR`) resets the session
to idle, replaces the output box content with the error detail regardless of
any partial output accumulated before the failure, and signals a failure
status. -/
theorem c7_failed_resets_session (s : AppState) (msg : List Char) :
    (process_ui_update s .error (some msg)).is_generating = false ∧
    (process_ui_update s .error (some msg)).generated_draft_text =
      lit "Error:\n" ++ msg ∧
    (process_ui_update s .error (some msg)).status_text =
      lit "Error occurred. See output box." ∧
    (process_ui_update s .error (some msg)).generate_button_enabled = true :=
  ⟨rfl, rfl, rfl, rfl⟩

/-- A concrete in-flight state: a generation is running, a chunk is queued,
the status bar shows the generating message. -/
def busyState : AppState :=
  { original_msg_text := lit "Are you free tomorrow?"
    instruction_text := lit "Say yes"
    is_generating := true
    generated_draft_text := lit "Sure"
    draft_box_editable := true
    status_text := lit "Generating draft..."
    generate_button_enabled := false
    generate_button_text := lit "Generating..."
    ui_update_queue := [(UpdateKind.chunk, some (lit ", I"))]
    worker_threads := 1 }

/-- Claim C3, counterexample: the claim states the caller is notified via a
status signal, but in the in-flight guard of `start_generate_task` (lines
158-160 of `src/ui.py`) the method only prints to the console and returns:
at this concrete in-flight state the whole widget state, the status bar text
and the UI event queue included, is exactly unchanged, so no status signal
reaches the UI; the only notification is the console line. -/
theorem c3_status_signal_counterexample :
    (start_generate_task busyState).1 = busyState ∧
    (start_generate_task busyState).1.status_text = lit "Generating draft..." ∧
    (start_generate_task busyState).1.ui_update_queue = busyState.ui_update_queue ∧
    (start_generate_task busyState).2 = [lit "Already generating, please wait."] :=
  ⟨rfl, rfl, rfl, rfl⟩

/-- Claim C3 (amended): calling `start_generate_task` while a generation is
in flight is a no-op: the state (so in particular the in-flight session, the
event queue and the worker-thread count) is unchanged and no second worker is
spawned; the caller is notified only by the console message
`Already generating, please wait.`, not by a UI status signal. -/
theorem c3_inflight_noop (s : AppState) (h : s.is_generating = true) :
    start_generate_task s = (s, [lit "Already generating, please wait."]) := by
  simp [start_generate_task, h]

/-- Witness for `c3_inflight_noop` at the concrete in-flight state. -/
theorem c3_inflight_noop_witness :
    busyState.is_generating = true ∧
    start_generate_task busyState =
      (busyState, [lit "Already generating, please wait."]) :=
  ⟨rfl, c3_inflight_noop busyState rfl⟩

/-- A stream event is terminal when it is `Done` or `Failed`. -/
def isTerminal (t : StreamEvent) : Prop :=
  t = StreamEvent.done ∨ ∃ k d, t = StreamEvent.failed k d

/-- The decode loop always produces zero or more fragments followed by one
terminal event. -/
theorem processLines_shape (lines : List RawLine) :
    ∃ (texts : List (List Char)) (t : StreamEvent),
      processLines lines = texts.map StreamEvent.fragment ++ [t] ∧ isTerminal t := by
  induction lines with
  | nil => exact ⟨[], .done, by simp [processLines], Or.inl rfl⟩
  | cons line rest ih =>
    obtain ⟨texts, t, heq, hterm⟩ := ih
    by_cases hraw : line.raw.isEmpty
    · exact ⟨texts, t, by simp [processLines, hraw, heq], hterm⟩
    · cases hp : line.parsed with
      | none =>
        exact ⟨[], .failed .decodeError
          (lit "Could not parse stream line as JSON: " ++ line.raw),
          by simp [processLines, hraw, hp], Or.inr ⟨_, _, rfl⟩⟩
      | some env =>
        by_cases herr : envelopeHasError env
        · exact ⟨[], .failed .protocolError (envelopeErrorText env),
            by simp [processLines, hraw, hp, herr], Or.inr ⟨_, _, rfl⟩⟩
        · by_cases hdone : env.done
          · exact ⟨[], .done, by simp [processLines, hraw, hp, herr, hdone], Or.inl rfl⟩
          · cases hc : env.content with
            | none =>
              exact ⟨texts, t, by simp [processLines, hraw, hp, herr, hdone, hc, heq],
                hterm⟩
            | some c =>
              by_cases hce : c.isEmpty
              · exact ⟨texts, t,
                  by simp [processLines, hraw, hp, herr, hdone, hc, hce, heq], hterm⟩
              · exact ⟨c :: texts, t,
                  by simp [processLines, hraw, hp, herr, hdone, hc, hce, heq], hterm⟩

/-- Claim C2: for every transport behaviour, one call of the streaming
draft-generation operation produces zero or more `Fragment` events followed
by exactly one terminal event (`Done` or `Failed`), and nothing after the
terminal event.  The claim is settled against the spec-modelled
`streamEvents`, since `generate_draft_async` is not present under `src/`. -/
theorem c2_event_sequence (ollama_url : List Char) (outcome : StreamOutcome) :
    ∃ (texts : List (List Char)) (t : StreamEvent),
      streamEvents ollama_url outcome = texts.map StreamEvent.fragment ++ [t] ∧
      isTerminal t := by
  cases outcome with
  | connectFailed =>
    exact ⟨[], .failed .connectFailed
      (lit "Could not connect to Ollama at " ++ full_url ollama_url),
      by simp [streamEvents], Or.inr ⟨_, _, rfl⟩⟩
  | timedOut =>
    exact ⟨[], .failed .timedOut
      (lit "Request to " ++ full_url ollama_url ++ lit " timed out after " ++
        (toString REQUEST_TIMEOUT).data ++ lit " seconds"),
      by simp [streamEvents], Or.inr ⟨_, _, rfl⟩⟩
  | httpError status reason body =>
    exact ⟨[], .failed .protocolError
      ((toString status).data ++ lit " " ++ reason ++ lit ": " ++ body),
      by simp [streamEvents], Or.inr ⟨_, _, rfl⟩⟩
  | transportError desc =>
    exact ⟨[], .failed .transportError desc, by simp [streamEvents], Or.inr ⟨_, _, rfl⟩⟩
  | streamedBody lines =>
    obtain ⟨texts, t, heq, hterm⟩ := processLines_shape lines
    exact ⟨texts, t, by simpa [streamEvents] using heq, hterm⟩

/-- Claim C4: a response with an error status (`raise_for_status()` raises
exactly for 4xx/5xx, the statuses `requests` itself counts as non-success)
fails with the HTTP-error-shaped message before the body is interpreted as a
draft; the message contains the status code, the server's `error` text when
the body parses to a JSON dict carrying one, and the raw body when the body
is not parseable JSON. -/
theorem c4_http_error (original_message instruction model ollama_url : List Char)
    (r : HttpResponse) (h4 : 400 ≤ r.status_code) (h6 : r.status_code < 600) :
    generate_draft original_message instruction model ollama_url (.response r) =
      (none, some (httpErrorMsg r (full_url ollama_url))) ∧
    lit "HTTP Error:" <+: httpErrorMsg r (full_url ollama_url) ∧
    statusDigits r <:+: httpErrorMsg r (full_url ollama_url) ∧
    (∀ kvs e, r.jsonBody = some (.dict kvs) → dictGetError kvs = some (.str e) →
      e <:+: httpErrorMsg r (full_url ollama_url)) ∧
    (r.jsonBody = none → r.text <:+: httpErrorMsg r (full_url ollama_url)) := by
  refine ⟨?_, ?_, ?_, ?_, ?_⟩
  · simp [generate_draft, h4, h6]
  · have h1 : lit "HTTP Error:" <+: lit "HTTP Error: " := by decide
    have h2 : lit "HTTP Error: " <+: httpErrorMsg r (full_url ollama_url) :=
      ⟨httpErrorReasonMsg r (full_url ollama_url) ++ lit ". Status Code: " ++
        statusDigits r ++ httpErrorSuffix r, by simp [httpErrorMsg, List.append_assoc]⟩
    exact h1.trans h2
  · exact ⟨lit "HTTP Error: " ++ httpErrorReasonMsg r (full_url ollama_url) ++
      lit ". Status Code: ", httpErrorSuffix r, by simp [httpErrorMsg, List.append_assoc]⟩
  · intro kvs e hjson hget
    have hsuf : httpErrorSuffix r = lit "\nOllama Response: " ++ e := by
      simp [httpErrorSuffix, hjson, hget, pyStr]
    exact ⟨lit "HTTP Error: " ++ httpErrorReasonMsg r (full_url ollama_url) ++
      lit ". Status Code: " ++ statusDigits r ++ lit "\nOllama Response: ", [],
      by simp [httpErrorMsg, hsuf, List.append_assoc]⟩
  · intro hjson
    have hsuf : httpErrorSuffix r = lit "\nRaw Response: " ++ r.text := by
      simp [httpErrorSuffix, hjson]
    exact ⟨lit "HTTP Error: " ++ httpErrorReasonMsg r (full_url ollama_url) ++
      lit ". Status Code: " ++ statusDigits r ++ lit "\nRaw Response: ", [],
      by simp [httpErrorMsg, hsuf, List.append_assoc]⟩

/-- A concrete 503 response whose JSON body carries an `error` field, as in
the repository's own HTTP-error test. -/
def r503 : HttpResponse :=
  { status_code := 503
    reason := lit "Service Unavailable"
    text := lit "\x7b\"error\": \"Model qwen2.5:0.5b is currently loading\"\x7d"
    jsonBody := some (.dict
      [(lit "error", .str (lit "Model qwen2.5:0.5b is currently loading"))]) }

/-- Witness for `c4_http_error` at the concrete 503 response. -/
theorem c4_http_error_witness :
    (400 ≤ r503.status_code ∧ r503.status_code < 600) ∧
    generate_draft (lit "Hi") (lit "Say yes") DEFAULT_MODEL DEFAULT_OLLAMA_URL
        (.response r503) =
      (none, some (httpErrorMsg r503 (full_url DEFAULT_OLLAMA_URL))) :=
  ⟨⟨by decide, by decide⟩,
    (c4_http_error (lit "Hi") (lit "Say yes") DEFAULT_MODEL DEFAULT_OLLAMA_URL r503
      (by decide) (by decide)).1⟩

/-- An endpoint configured with two trailing slashes. -/
def doubleSlashUrl : List Char := lit "http://localhost:11434//"

set_option maxRecDepth 8192 in
/-- Claim C5, counterexample: the claim states the failure detail contains
the configured endpoint URL, but the detail interpolates
`endpoint.rstrip('/') + "/api/chat"`; configured with two trailing slashes,
the endpoint as configured does not occur in the detail text. -/
theorem c5_endpoint_counterexample :
    generate_draft (lit "Hi") (lit "Say yes") DEFAULT_MODEL doubleSlashUrl
        TransportOutcome.connectionError =
      (none, some (connectionErrorMsg (full_url doubleSlashUrl))) ∧
    ¬ (doubleSlashUrl <:+: connectionErrorMsg (full_url doubleSlashUrl)) := by
  exact ⟨rfl, by decide⟩

/-- Claim C5 (amended): a connection-refused outcome yields exactly one
failure, of the connection-error kind, whose detail text contains the
configured endpoint stripped of trailing slashes (hence the configured
endpoint itself whenever it has at most one trailing slash). -/
theorem c5_connect_failed (original_message instruction model ollama_url : List Char) :
    generate_draft original_message instruction model ollama_url
        TransportOutcome.connectionError =
      (none, some (connectionErrorMsg (full_url ollama_url))) ∧
    lit "Connection Error:" <+: connectionErrorMsg (full_url ollama_url) ∧
    rstripSlashes ollama_url <:+: connectionErrorMsg (full_url ollama_url) := by
  refine ⟨rfl, ?_, ?_⟩
  · have h1 : lit "Connection Error:" <+:
        lit "Connection Error: Could not connect to Ollama at " := by decide
    have h2 : lit "Connection Error: Could not connect to Ollama at " <+:
        connectionErrorMsg (full_url ollama_url) :=
      ⟨full_url ollama_url ++ lit ". Is Ollama running?",
        by simp [connectionErrorMsg, List.append_assoc]⟩
    exact h1.trans h2
  · exact ⟨lit "Connection Error: Could not connect to Ollama at ",
      lit "/api/chat" ++ lit ". Is Ollama running?",
      by simp [connectionErrorMsg, full_url, List.append_assoc]⟩

/-- A concrete 200 response whose body is not JSON (an HTML error page), as
in the repository's own non-JSON-response test. -/
def rBadJson : HttpResponse :=
  { status_code := 200
    reason := lit "OK"
    text := lit "<html><body>Gateway Timeout</body></html>"
    jsonBody := none }

/-- Claim C6: a response (with a success status, so that the header check
passes) whose payload cannot be parsed as JSON yields exactly one failure of
the JSON-decode kind whose detail contains the offending raw text. -/
theorem c6_decode_error (original_message instruction model ollama_url : List Char)
    (r : HttpResponse) (hok : r.status_code < 400) (hjson : r.jsonBody = none) :
    generate_draft original_message instruction model ollama_url (.response r) =
      (none, some (decodeErrorMsg r.text)) ∧
    lit "JSON Decode Error:" <+: decodeErrorMsg r.text ∧
    r.text <:+: decodeErrorMsg r.text := by
  refine ⟨?_, ?_, ?_⟩
  · have hno : ¬ (400 ≤ r.status_code ∧ r.status_code < 600) := by omega
    simp [generate_draft, hno, hjson]
  · have h1 : lit "JSON Decode Error:" <+:
        lit "JSON Decode Error: Could not decode JSON response from Ollama.\nRaw Response: " := by
      decide
    exact h1.trans ⟨r.text, by simp [decodeErrorMsg]⟩
  · exact ⟨lit "JSON Decode Error: Could not decode JSON response from Ollama.\nRaw Response: ",
      [], by simp [decodeErrorMsg]⟩

/-- Witness for `c6_decode_error` at the concrete non-JSON 200 response. -/
theorem c6_decode_error_witness :
    rBadJson.status_code < 400 ∧
    generate_draft (lit "Hi") (lit "Say yes") DEFAULT_MODEL DEFAULT_OLLAMA_URL
        (.response rBadJson) = (none, some (decodeErrorMsg rBadJson.text)) :=
  ⟨by decide,
    (c6_decode_error (lit "Hi") (lit "Say yes") DEFAULT_MODEL DEFAULT_OLLAMA_URL
      rBadJson (by decide) rfl).1⟩

/-- The response-body processing always returns success xor failure. -/
theorem processResponseData_shape (v : PyVal) :
    (∃ d, processResponseData v = (some d, none)) ∨
    (∃ e, processResponseData v = (none, some e)) := by
  cases h : extractDraft v with
  | ok o =>
    cases o with
    | none => exact Or.inr ⟨unexpectedFormatMsg, by simp [processResponseData, h]⟩
    | some d => exact Or.inl ⟨d, by simp [processResponseData, h]⟩
  | error desc => exact Or.inr ⟨catchAllMsg desc, by simp [processResponseData, h]⟩

/-- Claim C9: for every input and every modelled behaviour of the HTTP layer,
`generate_draft` returns a pair in which exactly one of the draft and the
error message is present — it never raises and never returns both or
neither. -/
theorem c9_success_xor_failure
    (original_message instruction model ollama_url : List Char)
    (outcome : TransportOutcome) :
    (∃ d, generate_draft original_message instruction model ollama_url outcome =
      (some d, none)) ∨
    (∃ e, generate_draft original_message instruction model ollama_url outcome =
      (none, some e)) := by
  cases outcome with
  | connectionError => exact Or.inr ⟨_, rfl⟩
  | timeout => exact Or.inr ⟨_, rfl⟩
  | requestException desc => exact Or.inr ⟨_, rfl⟩
  | unexpectedException desc => exact Or.inr ⟨_, rfl⟩
  | response r =>
    by_cases h : 400 ≤ r.status_code ∧ r.status_code < 600
    · exact Or.inr ⟨httpErrorMsg r (full_url ollama_url), by simp [generate_draft, h]⟩
    · cases hj : r.jsonBody with
      | none => exact Or.inr ⟨decodeErrorMsg r.text, by simp [generate_draft, h, hj]⟩
      | some v =>
        rcases processResponseData_shape v with ⟨d, hd⟩ | ⟨e, he⟩
        · exact Or.inl ⟨d, by simp [generate_draft, h, hj, hd]⟩
        · exact Or.inr ⟨e, by simp [generate_draft, h, hj, he]⟩

/-- Claim C10: for every successful response whose JSON body carries
`message.content` as a string, the returned draft is that content with
leading and trailing whitespace removed. -/
theorem c10_draft_stripped (original_message instruction model ollama_url : List Char)
    (r : HttpResponse) (kvs mkvs : List (List Char × PyVal)) (s : List Char)
    (hok : r.status_code < 400)
    (hjson : r.jsonBody = some (.dict kvs))
    (hmsg : kvs.find? (fun p => p.1 == lit "message") = some (lit "message", .dict mkvs))
    (hcontent : mkvs.find? (fun p => p.1 == lit "content") = some (lit "content", .str s)) :
    generate_draft original_message instruction model ollama_url (.response r) =
      (some (pyStrip s), none) := by
  have hno : ¬ (400 ≤ r.status_code ∧ r.status_code < 600) := by omega
  have hin1 : pyIn (lit "message") (.dict kvs) = .ok true := by
    have hmem := List.mem_of_find?_eq_some hmsg
    have hp := List.find?_some hmsg
    simp only [pyIn, Except.ok.injEq, List.any_eq_true]
    exact ⟨(lit "message", PyVal.dict mkvs), hmem, by simp⟩
  have hget1 : pyGetItem (lit "message") (.dict kvs) = .ok (.dict mkvs) := by
    simp [pyGetItem, hmsg]
  have hin2 : pyIn (lit "content") (.dict mkvs) = .ok true := by
    have hmem := List.mem_of_find?_eq_some hcontent
    have hp := List.find?_some hcontent
    simp only [pyIn, Except.ok.injEq, List.any_eq_true]
    exact ⟨(lit "content", PyVal.str s), hmem, by simp⟩
  have hget2 : pyGetItem (lit "content") (.dict mkvs) = .ok (.str s) := by
    simp [pyGetItem, hcontent]
  have hex : extractDraft (.dict kvs) = .ok (some (pyStrip s)) := by
    simp [extractDraft, hin1, hget1, hin2, hget2]
  simp [generate_draft, hno, hjson, processResponseData, hex]

/-- A concrete successful response carrying `message.content` with leading
and trailing whitespace, as in the repository's own success test. -/
def rOk : HttpResponse :=
  { status_code := 200
    reason := lit "OK"
    text := lit "\x7b\"message\": \x7b\"role\": \"assistant\", \"content\": \" Sure, I can review it. When do you need it by? \"\x7d, \"done\": true\x7d"
    jsonBody := some (.dict
      [(lit "model", .str DEFAULT_MODEL),
       (lit "message", .dict
         [(lit "role", .str (lit "assistant")),
          (lit "content", .str (lit " Sure, I can review it. When do you need it by? "))]),
       (lit "done", .bool true)]) }

/-- Witness for `c10_draft_stripped` at the concrete successful response:
the draft equals the stripped content, not the server's content verbatim. -/
theorem c10_draft_stripped_witness :
    rOk.status_code < 400 ∧
    generate_draft (lit "Can you review this document?") (lit "Ask when they need it by.")
        DEFAULT_MODEL DEFAULT_OLLAMA_URL (.response rOk) =
      (some (lit "Sure, I can review it. When do you need it by?"), none) ∧
    lit "Sure, I can review it. When do you need it by?" ≠
      lit " Sure, I can review it. When do you need it by? " := by
  refine ⟨by decide, ?_, by decide⟩
  have h := c10_draft_stripped (lit "Can you review this document?")
    (lit "Ask when they need it by.") DEFAULT_MODEL DEFAULT_OLLAMA_URL rOk
    [(lit "model", .str DEFAULT_MODEL),
     (lit "message", .dict
       [(lit "role", .str (lit "assistant")),
        (lit "content", .str (lit " Sure, I can review it. When do you need it by? "))]),
     (lit "done", .bool true)]
    [(lit "role", .str (lit "assistant")),
     (lit "content", .str (lit " Sure, I can review it. When do you need it by? "))]
    (lit " Sure, I can review it. When do you need it by? ")
    (by decide) rfl rfl rfl
  have hstrip : pyStrip (lit " Sure, I can review it. When do you need it by? ") =
      lit "Sure, I can review it. When do you need it by?" := by decide
  rw [hstrip] at h
  exact h

end DraftBot
